import Mathlib

/-!
Verification of the reliable-data-transfer (RDT) engine of this repository
against its natural-language specification.

The development shallowly embeds the Python sources:

* `src/packet.py` — the `Packet` wire codec (`serialize`, `deserialize`,
  `calculate_checksum` via the first two bytes of an MD5 digest,
  `is_corrupt`, flag predicates, and the packet factory helpers);
* `src/rdt.py` — the sender window state (`RDTSender._handle_ack`), the
  receiver reassembly state (`RDTReceiver._handle_data_packet` with its
  in-order delivery loop and cumulative ACKs), the worker loops, and the
  `receive_all_data` completion heuristic.

Bytes are `List Nat` with values below 256; machine integers are `Nat`
with explicit bounds or `% 2 ^ w` where the wire format truncates.
Fallible operations (Python `struct.pack` range errors, early `return
None`) return `Option`.  Worker threads are modelled by explicit
per-received-datagram iteration functions, and the `receive_all_data`
polling loop by an explicit iteration oracle in place of wall-clock
time.  Where the source's behaviour hinges on Python-level call
semantics — the misbound `Packet.deserialize` call of the workers and
the misbound `create_data_packet` call of `send_data` — those calls are
modelled at the level of argument binding and attribute lookup.
-/

/-! ## Byte-level helpers -/

/-- Big-endian byte encoding of `v` in `w` bytes (the encoding used by
`struct.pack` format characters `!I`, `!H`, `!B`). -/
def beBytes : Nat → Nat → List Nat
  | 0, _ => []
  | w + 1, v => v / 256 ^ w % 256 :: beBytes w v

/-- Big-endian decoding of a byte list (as `struct.unpack` does). -/
def beDecode (l : List Nat) : Nat := l.foldl (fun acc b => acc * 256 + b) 0

/-- One `struct.pack` field: `struct.error` (modelled as `none`) when the
value does not fit in `w` bytes, otherwise the big-endian bytes. -/
def packUInt (w v : Nat) : Option (List Nat) :=
  if v < 256 ^ w then some (beBytes w v) else none

/-- Little-endian byte encoding, width `w`. -/
def leBytes : Nat → Nat → List Nat
  | 0, _ => []
  | w + 1, v => v % 256 :: leBytes w (v / 256)

theorem beBytes_length (w v : Nat) : (beBytes w v).length = w := by
  induction w generalizing v with
  | zero => simp [beBytes]
  | succ w ih => simp [beBytes, ih]

theorem beDecode_foldl (w v a : Nat) :
    (beBytes w v).foldl (fun acc b => acc * 256 + b) a =
      a * 256 ^ w + v % 256 ^ w := by
  induction w generalizing v a with
  | zero => simp [beBytes, Nat.mod_one]
  | succ w ih =>
    simp only [beBytes, List.foldl_cons, ih]
    have h : v % 256 ^ (w + 1) = v % 256 ^ w + 256 ^ w * (v / 256 ^ w % 256) := by
      rw [pow_succ, Nat.mod_mul]
    rw [h]; ring

theorem beDecode_beBytes {w v : Nat} (h : v < 256 ^ w) :
    beDecode (beBytes w v) = v := by
  simp [beDecode, beDecode_foldl, Nat.mod_eq_of_lt h]

/-! ## MD5 (the checksum primitive used by `Packet.calculate_checksum`)

`hashlib.md5` is embedded in full per RFC 1321; the digest was checked
against reference vectors. -/

/-- Truncate to 32 bits. -/
def mask32 (x : Nat) : Nat := x % 4294967296

/-- 32-bit left rotation (used with `x < 2 ^ 32` and `0 < s < 32`). -/
def rotl32 (x s : Nat) : Nat := mask32 ((x <<< s) ||| (x >>> (32 - s)))

/-- The 64 MD5 round constants of RFC 1321. -/
def md5K : List Nat :=
  [0xd76aa478, 0xe8c7b756, 0x242070db, 0xc1bdceee,
   0xf57c0faf, 0x4787c62a, 0xa8304613, 0xfd469501,
   0x698098d8, 0x8b44f7af, 0xffff5bb1, 0x895cd7be,
   0x6b901122, 0xfd987193, 0xa679438e, 0x49b40821,
   0xf61e2562, 0xc040b340, 0x265e5a51, 0xe9b6c7aa,
   0xd62f105d, 0x02441453, 0xd8a1e681, 0xe7d3fbc8,
   0x21e1cde6, 0xc33707d6, 0xf4d50d87, 0x455a14ed,
   0xa9e3e905, 0xfcefa3f8, 0x676f02d9, 0x8d2a4c8a,
   0xfffa3942, 0x8771f681, 0x6d9d6122, 0xfde5380c,
   0xa4beea44, 0x4bdecfa9, 0xf6bb4b60, 0xbebfbc70,
   0x289b7ec6, 0xeaa127fa, 0xd4ef3085, 0x04881d05,
   0xd9d4d039, 0xe6db99e5, 0x1fa27cf8, 0xc4ac5665,
   0xf4292244, 0x432aff97, 0xab9423a7, 0xfc93a039,
   0x655b59c3, 0x8f0ccc92, 0xffeff47d, 0x85845dd1,
   0x6fa87e4f, 0xfe2ce6e0, 0xa3014314, 0x4e0811a1,
   0xf7537e82, 0xbd3af235, 0x2ad7d2bb, 0xeb86d391]

/-- The 64 MD5 per-round shift amounts. -/
def md5S : List Nat :=
  [7, 12, 17, 22, 7, 12, 17, 22, 7, 12, 17, 22, 7, 12, 17, 22,
   5, 9, 14, 20, 5, 9, 14, 20, 5, 9, 14, 20, 5, 9, 14, 20,
   4, 11, 16, 23, 4, 11, 16, 23, 4, 11, 16, 23, 4, 11, 16, 23,
   6, 10, 15, 21, 6, 10, 15, 21, 6, 10, 15, 21, 6, 10, 15, 21]

/-- MD5 nonlinear function for round `i` on words `b c d`. -/
def md5F (i b c d : Nat) : Nat :=
  if i < 16 then (b &&& c) ||| ((b ^^^ 0xffffffff) &&& d)
  else if i < 32 then (d &&& b) ||| ((d ^^^ 0xffffffff) &&& c)
  else if i < 48 then b ^^^ c ^^^ d
  else c ^^^ (b ||| (d ^^^ 0xffffffff))

/-- Message-word index for round `i`. -/
def md5G (i : Nat) : Nat :=
  if i < 16 then i
  else if i < 32 then (5 * i + 1) % 16
  else if i < 48 then (3 * i + 5) % 16
  else (7 * i) % 16

/-- One MD5 round applied to the state `(a, b, c, d)`. -/
def md5Round (M : List Nat) (st : Nat × Nat × Nat × Nat) (i : Nat) :
    Nat × Nat × Nat × Nat :=
  match st with
  | (a, b, c, d) =>
    let f := mask32 (md5F i b c d + a + md5K.getD i 0 + M.getD (md5G i) 0)
    (d, mask32 (b + rotl32 f (md5S.getD i 0)), b, c)

/-- Process one 64-byte block. -/
def md5Block (st : Nat × Nat × Nat × Nat) (block : List Nat) :
    Nat × Nat × Nat × Nat :=
  let M := (List.range 16).map fun j =>
    block.getD (4 * j) 0 + 256 * block.getD (4 * j + 1) 0 +
      65536 * block.getD (4 * j + 2) 0 + 16777216 * block.getD (4 * j + 3) 0
  match st, (List.range 64).foldl (md5Round M) st with
  | (a0, b0, c0, d0), (a, b, c, d) =>
    (mask32 (a0 + a), mask32 (b0 + b), mask32 (c0 + c), mask32 (d0 + d))

/-- Split a byte list into 64-byte blocks.  Structural recursion on a fuel
bound dominating the iteration count keeps the definition kernel-reducible;
with `fuel ≥ l.length` the fuel never runs out because every iteration
consumes at least one element. -/
def chunks64Aux : Nat → List Nat → List (List Nat)
  | 0, _ => []
  | fuel + 1, l => if l = [] then [] else l.take 64 :: chunks64Aux fuel (l.drop 64)

/-- Split a byte list into 64-byte blocks. -/
def chunks64 (l : List Nat) : List (List Nat) := chunks64Aux l.length l

/-- MD5 padding: a `0x80` byte, zeros until the length is 56 mod 64, then
the 64-bit little-endian bit length. -/
def md5Pad (msg : List Nat) : List Nat :=
  msg ++ [0x80] ++ List.replicate ((119 - msg.length % 64) % 64) 0 ++
    leBytes 8 ((msg.length * 8) % 18446744073709551616)

/-- The 16-byte MD5 digest of a byte list. -/
def md5Digest (msg : List Nat) : List Nat :=
  match (chunks64 (md5Pad msg)).foldl md5Block
      (0x67452301, 0xefcdab89, 0x98badcfe, 0x10325476) with
  | (a, b, c, d) => leBytes 4 a ++ leBytes 4 b ++ leBytes 4 c ++ leBytes 4 d

/-- Models `int.from_bytes(hashlib.md5(content).digest()[:2],
byteorder='big')` from `Packet.calculate_checksum`. -/
def md5first2be (msg : List Nat) : Nat :=
  (md5Digest msg).getD 0 0 * 256 + (md5Digest msg).getD 1 0

theorem md5first2be_lt (msg : List Nat) : md5first2be msg < 65536 := by
  have h : ∀ m : List Nat, (md5Digest m).getD 0 0 < 256 ∧ (md5Digest m).getD 1 0 < 256 := by
    intro m
    unfold md5Digest
    obtain ⟨a, b, c, d⟩ := (chunks64 (md5Pad m)).foldl md5Block
      (0x67452301, 0xefcdab89, 0x98badcfe, 0x10325476)
    simp [leBytes]
    constructor <;> exact Nat.mod_lt _ (by norm_num)
  obtain ⟨h0, h1⟩ := h msg
  unfold md5first2be
  omega

/-! ## The Packet codec (`src/packet.py`) -/

/-- Packet structure for reliable data transfer: a 15-byte header
(`seq_num` 4 bytes, `ack_num` 4 bytes, `flags` 1 byte, `window_size`
2 bytes, `data_length` 2 bytes, `checksum` 2 bytes, all big-endian
unsigned) followed by the payload. -/
structure Packet where
  seq_num : Nat
  ack_num : Nat
  flags : Nat
  window_size : Nat
  data : List Nat
  data_length : Nat
  checksum : Nat
deriving DecidableEq

/-- Header size in bytes (`struct.calcsize('!IIBHHH')`). -/
def Packet.HEADER_SIZE : Nat := 15

/-- Models `Packet.__init__`: `data_length` is recomputed as `len(data)`
and `checksum` starts at 0.  (The `data.encode()` branch for `str` input
is irrelevant here: every payload in scope is already bytes.) -/
def Packet.make (seq_num ack_num flags window_size : Nat) (data : List Nat) : Packet :=
  { seq_num := seq_num, ack_num := ack_num, flags := flags,
    window_size := window_size, data := data,
    data_length := data.length, checksum := 0 }

/-- The content the checksum is computed over:
`struct.pack('!IIBHH', seq_num, ack_num, flags, window_size, data_length)`
concatenated with `data`; `none` models a `struct.error` for an
out-of-range field. -/
def Packet.checksumContent (p : Packet) : Option (List Nat) :=
  (packUInt 4 p.seq_num).bind fun b1 =>
  (packUInt 4 p.ack_num).bind fun b2 =>
  (packUInt 1 p.flags).bind fun b3 =>
  (packUInt 2 p.window_size).bind fun b4 =>
  (packUInt 2 p.data_length).map fun b5 =>
  b1 ++ b2 ++ b3 ++ b4 ++ b5 ++ p.data

/-- Models `Packet.calculate_checksum`: the first two bytes (big-endian)
of the MD5 digest of the five checksum-covered header fields plus data. -/
def Packet.calculate_checksum (p : Packet) : Option Nat :=
  p.checksumContent.map md5first2be

/-- Models `Packet.serialize`: computes the checksum and emits the 15-byte
header followed by the data.  (The Python method also stores the computed
checksum into `self.checksum` before packing; since the packed checksum is
the freshly computed value, the emitted bytes do not depend on the
incoming `checksum` field — see `claim_C4`.) -/
def Packet.serialize (p : Packet) : Option (List Nat) :=
  p.calculate_checksum.bind fun ck =>
  (packUInt 4 p.seq_num).bind fun b1 =>
  (packUInt 4 p.ack_num).bind fun b2 =>
  (packUInt 1 p.flags).bind fun b3 =>
  (packUInt 2 p.window_size).bind fun b4 =>
  (packUInt 2 p.data_length).bind fun b5 =>
  (packUInt 2 ck).map fun b6 =>
  b1 ++ b2 ++ b3 ++ b4 ++ b5 ++ b6 ++ p.data

/-- Models the body of `Packet.deserialize`: `None` when the buffer is
shorter than the 15-byte header, otherwise the header fields are unpacked,
the payload is `raw_data[15:15 + data_length]` (Python slicing silently
truncates), the packet is rebuilt through the constructor (which recomputes
`data_length` from the actual payload), and the wire checksum is stored
verbatim.  The source's `except struct.error` branch is dead code: the
unpacked slice is exactly `HEADER_SIZE` bytes, so `struct.unpack` never
fails once the length guard has passed. -/
def Packet.deserialize (raw_data : List Nat) : Option Packet :=
  if raw_data.length < Packet.HEADER_SIZE then none
  else
    let seq_num := beDecode (raw_data.take 4)
    let ack_num := beDecode ((raw_data.drop 4).take 4)
    let flags := beDecode ((raw_data.drop 8).take 1)
    let window_size := beDecode ((raw_data.drop 9).take 2)
    let data_length := beDecode ((raw_data.drop 11).take 2)
    let checksum := beDecode ((raw_data.drop 13).take 2)
    let data := (raw_data.drop Packet.HEADER_SIZE).take data_length
    some { Packet.make seq_num ack_num flags window_size data with checksum := checksum }

/-- Models `Packet.is_corrupt`: recompute the checksum and compare with the
carried one (`none` when recomputation itself would raise). -/
def Packet.is_corrupt (p : Packet) : Option Bool :=
  p.calculate_checksum.map fun c => decide (c ≠ p.checksum)

/-- Models `Packet.is_ack`: bit `0x02` of `flags`. -/
def Packet.is_ack (p : Packet) : Bool := (p.flags &&& 2) != 0

/-- Models `Packet.is_data`: bit `0x01` of `flags`. -/
def Packet.is_data (p : Packet) : Bool := (p.flags &&& 1) != 0

/-- The wire `data_length` field of a raw buffer (header bytes 11–12). -/
def wireDataLength (raw : List Nat) : Nat := beDecode ((raw.drop 11).take 2)

theorem packUInt_eq {w v : Nat} (h : v < 256 ^ w) :
    packUInt w v = some (beBytes w v) := by
  simp [packUInt, h]

theorem md5first2be_lt_pow (msg : List Nat) : md5first2be msg < 256 ^ 2 := by
  have := md5first2be_lt msg
  norm_num
  omega

theorem Packet.serialize_eq {p : Packet} (h1 : p.seq_num < 256 ^ 4)
    (h2 : p.ack_num < 256 ^ 4) (h3 : p.flags < 256 ^ 1)
    (h4 : p.window_size < 256 ^ 2) (h5 : p.data_length < 256 ^ 2) :
    ∃ ck, p.calculate_checksum = some ck ∧
      p.serialize = some (beBytes 4 p.seq_num ++ beBytes 4 p.ack_num ++
        beBytes 1 p.flags ++ beBytes 2 p.window_size ++
        beBytes 2 p.data_length ++ beBytes 2 ck ++ p.data) := by
  have hcc : p.checksumContent = some (beBytes 4 p.seq_num ++ beBytes 4 p.ack_num ++
      beBytes 1 p.flags ++ beBytes 2 p.window_size ++ beBytes 2 p.data_length ++ p.data) := by
    unfold Packet.checksumContent
    rw [packUInt_eq h1, packUInt_eq h2, packUInt_eq h3, packUInt_eq h4, packUInt_eq h5]
    simp
  refine ⟨md5first2be (beBytes 4 p.seq_num ++ beBytes 4 p.ack_num ++
      beBytes 1 p.flags ++ beBytes 2 p.window_size ++ beBytes 2 p.data_length ++ p.data),
    ?_, ?_⟩
  · simp [Packet.calculate_checksum, hcc]
  · unfold Packet.serialize
    rw [show p.calculate_checksum = some (md5first2be (beBytes 4 p.seq_num ++
        beBytes 4 p.ack_num ++ beBytes 1 p.flags ++ beBytes 2 p.window_size ++
        beBytes 2 p.data_length ++ p.data)) by simp [Packet.calculate_checksum, hcc]]
    rw [Option.some_bind, packUInt_eq h1, packUInt_eq h2, packUInt_eq h3,
      packUInt_eq h4, packUInt_eq h5, packUInt_eq (md5first2be_lt_pow _)]
    simp

theorem Packet.deserialize_of_ge {raw : List Nat} (h : 15 ≤ raw.length) :
    Packet.deserialize raw = some { Packet.make (beDecode (raw.take 4))
      (beDecode ((raw.drop 4).take 4)) (beDecode ((raw.drop 8).take 1))
      (beDecode ((raw.drop 9).take 2)) ((raw.drop 15).take (wireDataLength raw))
      with checksum := beDecode ((raw.drop 13).take 2) } := by
  unfold Packet.deserialize
  rw [if_neg (by simp [Packet.HEADER_SIZE]; omega)]
  rfl

theorem take_drop_take (raw : List Nat) (k j N : Nat) (h : k + j ≤ N) :
    ((raw.take N).drop k).take j = (raw.drop k).take j := by
  rw [List.drop_take, List.take_take, Nat.min_eq_left (by omega)]

theorem Packet.deserialize_append {s a f w dl ck : Nat} (data : List Nat)
    (h1 : s < 256 ^ 4) (h2 : a < 256 ^ 4) (h3 : f < 256 ^ 1)
    (h4 : w < 256 ^ 2) (h5 : dl < 256 ^ 2) (h6 : ck < 256 ^ 2) :
    Packet.deserialize (beBytes 4 s ++ beBytes 4 a ++ beBytes 1 f ++
        beBytes 2 w ++ beBytes 2 dl ++ beBytes 2 ck ++ data) =
      some { Packet.make s a f w (data.take dl) with checksum := ck } := by
  set L := beBytes 4 s ++ beBytes 4 a ++ beBytes 1 f ++
    beBytes 2 w ++ beBytes 2 dl ++ beBytes 2 ck ++ data with hLdef
  have hLassoc : L = beBytes 4 s ++ (beBytes 4 a ++ (beBytes 1 f ++
      (beBytes 2 w ++ (beBytes 2 dl ++ (beBytes 2 ck ++ data))))) := by
    simp [hLdef, List.append_assoc]
  have hlen : L.length = 15 + data.length := by
    simp [hLassoc, beBytes_length]
    omega
  have d4 : L.drop 4 = beBytes 4 a ++ (beBytes 1 f ++
      (beBytes 2 w ++ (beBytes 2 dl ++ (beBytes 2 ck ++ data)))) := by
    rw [hLassoc]; exact List.drop_left' (beBytes_length _ _)
  have d8 : L.drop 8 = beBytes 1 f ++
      (beBytes 2 w ++ (beBytes 2 dl ++ (beBytes 2 ck ++ data))) := by
    have hd : L.drop 8 = (L.drop 4).drop 4 := by rw [List.drop_drop]
    rw [hd, d4]; exact List.drop_left' (beBytes_length _ _)
  have d9 : L.drop 9 = beBytes 2 w ++ (beBytes 2 dl ++ (beBytes 2 ck ++ data)) := by
    have hd : L.drop 9 = (L.drop 8).drop 1 := by rw [List.drop_drop]
    rw [hd, d8]; exact List.drop_left' (beBytes_length _ _)
  have d11 : L.drop 11 = beBytes 2 dl ++ (beBytes 2 ck ++ data) := by
    have hd : L.drop 11 = (L.drop 9).drop 2 := by rw [List.drop_drop]
    rw [hd, d9]; exact List.drop_left' (beBytes_length _ _)
  have d13 : L.drop 13 = beBytes 2 ck ++ data := by
    have hd : L.drop 13 = (L.drop 11).drop 2 := by rw [List.drop_drop]
    rw [hd, d11]; exact List.drop_left' (beBytes_length _ _)
  have d15 : L.drop 15 = data := by
    have hd : L.drop 15 = (L.drop 13).drop 2 := by rw [List.drop_drop]
    rw [hd, d13]; exact List.drop_left' (beBytes_length _ _)
  have t0 : L.take 4 = beBytes 4 s := by
    rw [hLassoc]; exact List.take_left' (beBytes_length _ _)
  have t4 : (L.drop 4).take 4 = beBytes 4 a := by
    rw [d4]; exact List.take_left' (beBytes_length _ _)
  have t8 : (L.drop 8).take 1 = beBytes 1 f := by
    rw [d8]; exact List.take_left' (beBytes_length _ _)
  have t9 : (L.drop 9).take 2 = beBytes 2 w := by
    rw [d9]; exact List.take_left' (beBytes_length _ _)
  have t11 : (L.drop 11).take 2 = beBytes 2 dl := by
    rw [d11]; exact List.take_left' (beBytes_length _ _)
  have t13 : (L.drop 13).take 2 = beBytes 2 ck := by
    rw [d13]; exact List.take_left' (beBytes_length _ _)
  rw [Packet.deserialize_of_ge (by omega)]
  rw [wireDataLength, t0, t4, t8, t9, t11, t13, d15,
    beDecode_beBytes h1, beDecode_beBytes h2, beDecode_beBytes h3,
    beDecode_beBytes h4, beDecode_beBytes h5, beDecode_beBytes h6]

/-- Claim C3 (amended): `deserialize` returns `none` exactly when the
buffer is shorter than 15 bytes; in any other case — including a length
prefix inconsistent with the number of bytes remaining after the header —
it returns a packet whose `checksum` field is the value carried on the
wire (header bytes 13–14), not a recomputed one. -/
theorem claim_C3 : ∀ raw : List Nat,
    (Packet.deserialize raw = none ↔ raw.length < 15) ∧
    (∀ p : Packet, Packet.deserialize raw = some p →
      p.checksum = beDecode ((raw.drop 13).take 2)) := by
  intro raw
  by_cases hlen : raw.length < 15
  · constructor
    · simp [Packet.deserialize, Packet.HEADER_SIZE, hlen]
    · intro p hp
      rw [Packet.deserialize] at hp
      simp [Packet.HEADER_SIZE, hlen] at hp
  · rw [Packet.deserialize_of_ge (by omega)]
    constructor
    · simp; omega
    · intro p hp
      injection hp with hp
      rw [← hp]

/-- Claim C3 counterexample to the original statement: a buffer of exactly
15 bytes whose `data_length` field claims 5 payload bytes (so the length
prefix is inconsistent with the empty remainder) is NOT rejected —
`deserialize` returns a packet, with the payload silently truncated. -/
theorem claim_C3_cex :
    Packet.deserialize [0, 0, 0, 0, 0, 0, 0, 0, 0, 0, 0, 0, 5, 0, 0] =
      some { Packet.make 0 0 0 0 [] with checksum := 0 } ∧
    wireDataLength [0, 0, 0, 0, 0, 0, 0, 0, 0, 0, 0, 0, 5, 0, 0] = 5 ∧
    ([0, 0, 0, 0, 0, 0, 0, 0, 0, 0, 0, 0, 5, 0, 0] : List Nat).length = 15 := by
  refine ⟨?_, by decide, by decide⟩
  decide

theorem claim_C3_witness :
    (Packet.deserialize [0, 0, 0, 0, 0, 0, 0, 0, 0, 0, 0, 0, 0, 0, 7] = none ↔
      ([0, 0, 0, 0, 0, 0, 0, 0, 0, 0, 0, 0, 0, 0, 7] : List Nat).length < 15) ∧
    ({ Packet.make 0 0 0 0 [] with checksum := 7 } : Packet).checksum =
      beDecode ((([0, 0, 0, 0, 0, 0, 0, 0, 0, 0, 0, 0, 0, 0, 7] : List Nat).drop 13).take 2) :=
  ⟨(claim_C3 [0, 0, 0, 0, 0, 0, 0, 0, 0, 0, 0, 0, 0, 0, 7]).1,
   (claim_C3 [0, 0, 0, 0, 0, 0, 0, 0, 0, 0, 0, 0, 0, 0, 7]).2
     { Packet.make 0 0 0 0 [] with checksum := 7 } (by decide)⟩

/-- Claim C10: for every buffer of at least 15 bytes, `deserialize`
succeeds and the returned packet's `data_length` equals the recomputed
length of its actual payload; the payload is `raw[15 : 15 + wire_dl]`,
silently truncated to the bytes available when the wire `data_length`
claims more than the buffer holds, and bytes beyond offset
`15 + wire_dl` are ignored (truncating the buffer there yields the same
packet). -/
theorem claim_C10 : ∀ raw : List Nat, 15 ≤ raw.length →
    ∃ p : Packet, Packet.deserialize raw = some p ∧
      p.data_length = p.data.length ∧
      p.data = (raw.drop 15).take (wireDataLength raw) ∧
      (raw.length - 15 ≤ wireDataLength raw → p.data = raw.drop 15) ∧
      Packet.deserialize (raw.take (15 + wireDataLength raw)) = some p := by
  intro raw h
  rw [Packet.deserialize_of_ge h]
  refine ⟨_, rfl, rfl, rfl, ?_, ?_⟩
  · intro hle
    exact List.take_of_length_le (by simp; omega)
  · have hlen' : 15 ≤ (raw.take (15 + wireDataLength raw)).length := by
      simp; omega
    rw [Packet.deserialize_of_ge hlen']
    have edl : ∀ m : Nat, 13 ≤ m → wireDataLength (raw.take m) = wireDataLength raw := by
      intro m hm
      unfold wireDataLength
      rw [take_drop_take _ 11 2 _ (by omega)]
    rw [edl (15 + wireDataLength raw) (by omega)]
    rw [List.take_take, Nat.min_eq_left (by omega),
      take_drop_take _ 4 4 _ (by omega), take_drop_take _ 8 1 _ (by omega),
      take_drop_take _ 9 2 _ (by omega), take_drop_take _ 13 2 _ (by omega),
      take_drop_take _ 15 (wireDataLength raw) _ (by omega)]

theorem claim_C10_witness :
    ∃ p : Packet,
      Packet.deserialize [0, 0, 0, 0, 0, 0, 0, 0, 0, 0, 0, 0, 5, 0, 9, 65, 66] = some p ∧
      p.data_length = p.data.length ∧
      p.data = (([0, 0, 0, 0, 0, 0, 0, 0, 0, 0, 0, 0, 5, 0, 9, 65, 66] : List Nat).drop 15).take
        (wireDataLength [0, 0, 0, 0, 0, 0, 0, 0, 0, 0, 0, 0, 5, 0, 9, 65, 66]) ∧
      (([0, 0, 0, 0, 0, 0, 0, 0, 0, 0, 0, 0, 5, 0, 9, 65, 66] : List Nat).length - 15 ≤
          wireDataLength [0, 0, 0, 0, 0, 0, 0, 0, 0, 0, 0, 0, 5, 0, 9, 65, 66] →
        p.data = ([0, 0, 0, 0, 0, 0, 0, 0, 0, 0, 0, 0, 5, 0, 9, 65, 66] : List Nat).drop 15) ∧
      Packet.deserialize (([0, 0, 0, 0, 0, 0, 0, 0, 0, 0, 0, 0, 5, 0, 9, 65, 66] : List Nat).take
        (15 + wireDataLength [0, 0, 0, 0, 0, 0, 0, 0, 0, 0, 0, 0, 5, 0, 9, 65, 66])) = some p :=
  claim_C10 [0, 0, 0, 0, 0, 0, 0, 0, 0, 0, 0, 0, 5, 0, 9, 65, 66] (by decide)

set_option maxRecDepth 20000 in
/-- Claim C4: for every packet whose fields fit their wire widths (with
`data_length = len(data)`), `serialize` is deterministic — in particular
it does not depend on the incoming `checksum` field, which it overwrites —
and round-trips with `deserialize`: deserializing the serialization yields
a packet equal field-for-field with `checksum` equal to the computed
value, on which `is_corrupt` is `false`; moreover `is_corrupt` is `true`
iff the recomputed checksum differs from the carried one. -/
theorem claim_C4 :
    (∀ p : Packet, p.seq_num < 2 ^ 32 → p.ack_num < 2 ^ 32 → p.flags < 2 ^ 8 →
      p.window_size < 2 ^ 16 → p.data_length < 2 ^ 16 → p.data_length = p.data.length →
      ∃ ck bytes, p.calculate_checksum = some ck ∧ p.serialize = some bytes ∧
        (∀ c : Nat, Packet.serialize { p with checksum := c } = some bytes) ∧
        Packet.deserialize bytes = some { p with checksum := ck } ∧
        Packet.is_corrupt { p with checksum := ck } = some false) ∧
    (∀ (q : Packet) (ck : Nat), q.calculate_checksum = some ck →
      (q.is_corrupt = some true ↔ ck ≠ q.checksum)) := by
  constructor
  · intro p h1 h2 h3 h4 h5 h6
    have h1' : p.seq_num < 256 ^ 4 := by norm_num at h1 ⊢; omega
    have h2' : p.ack_num < 256 ^ 4 := by norm_num at h2 ⊢; omega
    have h3' : p.flags < 256 ^ 1 := by norm_num at h3 ⊢; omega
    have h4' : p.window_size < 256 ^ 2 := by norm_num at h4 ⊢; omega
    have h5' : p.data_length < 256 ^ 2 := by norm_num at h5 ⊢; omega
    obtain ⟨ck, hck, hser⟩ := Packet.serialize_eq h1' h2' h3' h4' h5'
    have hcklt : ck < 256 ^ 2 := by
      rw [Packet.calculate_checksum] at hck
      rcases hmap : p.checksumContent with _ | content
      · rw [hmap] at hck; simp at hck
      · rw [hmap] at hck
        simp at hck
        rw [← hck]
        exact md5first2be_lt_pow content
    refine ⟨ck, _, hck, hser, ?_, ?_, ?_⟩
    · intro c
      have : Packet.serialize { p with checksum := c } = p.serialize := rfl
      rw [this, hser]
    · rw [Packet.deserialize_append p.data h1' h2' h3' h4' h5' hcklt]
      have hdata : p.data.take p.data_length = p.data := by
        rw [h6]; exact List.take_length p.data
      rw [hdata]
      have : Packet.make p.seq_num p.ack_num p.flags p.window_size p.data =
          { p with checksum := 0 } := by
        rw [Packet.make]
        cases p
        simp_all
      rw [this]
    · have hcc : Packet.calculate_checksum { p with checksum := ck } =
          p.calculate_checksum := rfl
      rw [Packet.is_corrupt, hcc, hck]
      simp
  · intro q ck h
    rw [Packet.is_corrupt, h]
    simp

set_option maxRecDepth 20000 in
theorem claim_C4_witness :
    (∃ ck bytes, (Packet.make 1 2 1 5 [72, 105]).calculate_checksum = some ck ∧
      (Packet.make 1 2 1 5 [72, 105]).serialize = some bytes ∧
      (∀ c : Nat, Packet.serialize { Packet.make 1 2 1 5 [72, 105] with checksum := c } =
        some bytes) ∧
      Packet.deserialize bytes = some { Packet.make 1 2 1 5 [72, 105] with checksum := ck } ∧
      Packet.is_corrupt { Packet.make 1 2 1 5 [72, 105] with checksum := ck } = some false) ∧
    ((Packet.make 1 2 1 5 [72, 105]).is_corrupt = some true ↔
      35150 ≠ (Packet.make 1 2 1 5 [72, 105]).checksum) :=
  ⟨claim_C4.1 (Packet.make 1 2 1 5 [72, 105]) (by decide) (by decide) (by decide)
    (by decide) (by decide) rfl,
   claim_C4.2 (Packet.make 1 2 1 5 [72, 105]) 35150 (by decide)⟩

/-! ## Packet factory (`src/packet.py`) and the wire image of a packet

Note that `create_data_packet` has no counterpart here: its source
signature `create_data_packet(type, seq_num, data, window_size=5)`
carries a spurious leading `type` parameter against which the engine's
only call site misbinds its arguments, so the function can never build a
packet for the engine — see the Python-level model before claims
C6–C8.  `create_ack_packet(ack_num, window_size=5)` in contrast is
called positionally as intended by `_send_ack` and is modelled. -/

/-- Models `create_ack_packet`: an ACK-flagged packet with empty payload. -/
def create_ack_packet (ack_num window_size : Nat) : Packet :=
  Packet.make 0 ack_num 2 window_size []

/-- The packet object after `serialize` has stored the computed checksum
into it (`self.checksum = self.calculate_checksum()` runs first thing in
`serialize`); by the round-trip property (claim C4) this is also the
field content an intact wire transfer hands to the peer. -/
def Packet.withChecksum (p : Packet) : Packet :=
  match p.calculate_checksum with
  | some c => { p with checksum := c }
  | none => p

/-! ## Association lists: the model of the Python dict buffers -/

/-- Lookup in an association-list model of a `Nat`-keyed dict. -/
def alookup {α : Type} : List (Nat × α) → Nat → Option α
  | [], _ => none
  | kv :: t, k => if kv.1 = k then some kv.2 else alookup t k

/-- Deletion of a key (`del d[k]`). -/
def aerase {α : Type} (l : List (Nat × α)) (k : Nat) : List (Nat × α) :=
  l.filter fun kv => kv.1 != k

/-- Assignment (`d[k] = v`). -/
def ainsert {α : Type} (l : List (Nat × α)) (k : Nat) (v : α) : List (Nat × α) :=
  (k, v) :: aerase l k

theorem aerase_length_lt {α : Type} {l : List (Nat × α)} {k : Nat} {v : α}
    (h : alookup l k = some v) : (aerase l k).length < l.length := by
  induction l with
  | nil => simp [alookup] at h
  | cons kv t ih =>
    rw [alookup] at h
    rw [aerase, List.filter_cons]
    by_cases hk : kv.1 = k
    · rw [if_neg (by simp [hk])]
      have := List.length_filter_le (fun kv : Nat × α => kv.1 != k) t
      simp only [List.length_cons]
      rw [← aerase] at this ⊢
      omega
    · rw [if_pos (by simp [hk])]
      rw [if_neg hk] at h
      simp only [List.length_cons]
      rw [← aerase]
      exact Nat.succ_lt_succ (ih h)

/-! ## Sender state and ACK handling (`RDTSender`, `src/rdt.py`) -/

/-- The sender's window state: `base` (oldest unacknowledged), `next_seq_num`
(next to assign), the `send_buffer` dict keyed by seq (the stored
per-packet timestamps only schedule retransmissions and are not
carried), and the `acks_received_count` statistic. -/
structure SenderState where
  base : Nat
  next_seq_num : Nat
  send_buffer : List (Nat × Packet)
  acks_received_count : Nat
deriving DecidableEq

/-- Sender state as `RDTSender.__init__` leaves it. -/
def initSender : SenderState := ⟨0, 0, [], 0⟩

/-- Models `RDTSender._handle_ack`: count the ACK; if `ack_num ≥ base`,
delete every buffered entry with seq in `range(base, ack_num + 1)` and set
`base := ack_num + 1`; otherwise (stale ACK) leave the window alone. -/
def SenderState.handle_ack (s : SenderState) (ack_num : Nat) : SenderState :=
  let s1 : SenderState := { s with acks_received_count := s.acks_received_count + 1 }
  if s1.base ≤ ack_num then
    { s1 with
      send_buffer := s1.send_buffer.filter fun kv =>
        decide (¬ (s1.base ≤ kv.1 ∧ kv.1 ≤ ack_num)),
      base := ack_num + 1 }
  else s1

/-! ## Receiver state and DATA handling (`RDTReceiver`, `src/rdt.py`) -/

/-- The receiver's reassembly state.  `delivered` is the history of
`data_queue.put` calls, each recorded with the `expected_seq_num` at which
it was pushed (the Python queue holds only the payload; the seq is a
history annotation used to state the ordering claims). -/
structure ReceiverState where
  expected_seq_num : Nat
  receive_buffer : List (Nat × Packet)
  delivered : List (Nat × List Nat)
  packets_received : Nat
  duplicates_received : Nat
  acks_sent : Nat
deriving DecidableEq

/-- Receiver state as `RDTReceiver.__init__` leaves it. -/
def initReceiver : ReceiverState := ⟨0, [], [], 0, 0, 0⟩

/-- The `while self.expected_seq_num in self.receive_buffer` delivery loop
of `_handle_data_packet`: pop the expected entry, push its payload to the
application queue, advance `expected_seq_num`.  Structured on a fuel bound
(the buffer shrinks by at least one entry per iteration, so
`fuel ≥ rb.length` makes the 0-fuel branch unreachable while the loop
condition holds). -/
def deliverLoopAux : Nat → List (Nat × Packet) → Nat → List (Nat × List Nat) →
    List (Nat × Packet) × Nat × List (Nat × List Nat)
  | 0, rb, e, dl => (rb, e, dl)
  | fuel + 1, rb, e, dl =>
    match alookup rb e with
    | some p => deliverLoopAux fuel (aerase rb e) (e + 1) (dl ++ [(e, p.data)])
    | none => (rb, e, dl)

/-- The delivery loop with enough fuel to run to completion. -/
def deliverLoop (rb : List (Nat × Packet)) (e : Nat) (dl : List (Nat × List Nat)) :
    List (Nat × Packet) × Nat × List (Nat × List Nat) :=
  deliverLoopAux rb.length rb e dl

/-- Models `RDTReceiver._handle_data_packet` plus the `_send_ack` call it
makes: the result is the updated state together with the `ack_num` emitted
(`none` when the packet is discarded as corrupt — or when checksum
recomputation raises, which the worker's catch-all absorbs).  Python's
`max(0, expected_seq_num - 1)` coincides with truncated subtraction
`expected_seq_num - 1` on `Nat`. -/
def ReceiverState.handle_data_packet (r : ReceiverState) (p : Packet) :
    ReceiverState × Option Nat :=
  match p.is_corrupt with
  | some false =>
    let r1 : ReceiverState := { r with packets_received := r.packets_received + 1 }
    if p.seq_num < r1.expected_seq_num then
      ({ r1 with duplicates_received := r1.duplicates_received + 1,
                 acks_sent := r1.acks_sent + 1 },
       some (r1.expected_seq_num - 1))
    else
      match deliverLoop (ainsert r1.receive_buffer p.seq_num p)
          r1.expected_seq_num r1.delivered with
      | (rb, e, dl) =>
        ({ r1 with receive_buffer := rb, expected_seq_num := e, delivered := dl,
                   acks_sent := r1.acks_sent + 1 },
         some (e - 1))
  | _ => (r, none)

/-! ## The broken `Packet.deserialize` call sites (claim C1) -/

/-- Outcome of a Python call: either a `TypeError` at binding time or a
returned value. -/
inductive PyCallResult (α : Type) where
  | typeError : PyCallResult α
  | ok : α → PyCallResult α
deriving DecidableEq

/-- Number of parameters of `Packet.deserialize` exactly as written in the
source: `def deserialize(self, cls, raw_data)` — three, no defaults. -/
def deserializeParamCount : Nat := 3

/-- The method carries no `@classmethod` (or `@staticmethod`) decorator in
the source. -/
def deserializeDecoratedClassmethod : Bool := false

/-- Python semantics of the call `Packet.deserialize(raw)` as issued by
`RDTSender._receive_acks`, `RDTReceiver._receive_packets` and the
connector: a plain function accessed on the class gets no implicit first
argument (a classmethod would get the class bound as one); the call then
supplies one positional argument and raises `TypeError` unless the
supplied count matches the parameter count. -/
def callPacketDeserializeOnClass (raw : List Nat) : PyCallResult (Option Packet) :=
  let supplied := (if deserializeDecoratedClassmethod then 1 else 0) + 1
  if supplied = deserializeParamCount then PyCallResult.ok (Packet.deserialize raw)
  else PyCallResult.typeError

/-- One iteration of the `RDTSender._receive_acks` worker body on a
received datagram: deserialize, and on a parsed non-corrupt ACK call
`_handle_ack`; any exception (in particular the `TypeError` from the
broken call) is swallowed by the worker's `except Exception` handler,
leaving the state untouched. -/
def receiveAcksIteration (s : SenderState) (raw : List Nat) : SenderState :=
  match callPacketDeserializeOnClass raw with
  | PyCallResult.typeError => s
  | PyCallResult.ok none => s
  | PyCallResult.ok (some p) =>
    if p.is_ack && decide (p.is_corrupt = some false) then s.handle_ack p.ack_num else s

/-- One iteration of the `RDTReceiver._receive_packets` worker body on a
received datagram, with the same catch-all behaviour. -/
def receivePacketsIteration (r : ReceiverState) (raw : List Nat) : ReceiverState :=
  match callPacketDeserializeOnClass raw with
  | PyCallResult.typeError => r
  | PyCallResult.ok none => r
  | PyCallResult.ok (some p) =>
    if p.is_data then (r.handle_data_packet p).1 else r

/-! ## Auxiliary lemmas about the buffers and the delivery loop -/

theorem alookup_filter_none {α : Type} (l : List (Nat × α)) (pb : Nat × α → Bool)
    (k : Nat) (h : ∀ v, pb (k, v) = false) : alookup (l.filter pb) k = none := by
  induction l with
  | nil => rfl
  | cons kv t ih =>
    obtain ⟨k1, v1⟩ := kv
    rw [List.filter_cons]
    by_cases hk : k1 = k
    · subst hk
      rw [h v1]
      simpa using ih
    · by_cases hp : pb (k1, v1) = true
      · rw [hp]
        simp only [if_true]
        rw [alookup, if_neg hk]
        exact ih
      · rw [Bool.not_eq_true] at hp
        rw [hp]
        simpa using ih

theorem alookup_filter_eq {α : Type} (l : List (Nat × α)) (pb : Nat × α → Bool)
    (k : Nat) (h : ∀ v, pb (k, v) = true) : alookup (l.filter pb) k = alookup l k := by
  induction l with
  | nil => rfl
  | cons kv t ih =>
    obtain ⟨k1, v1⟩ := kv
    rw [List.filter_cons]
    by_cases hk : k1 = k
    · subst hk
      rw [h v1]
      simp only [if_true]
      rw [alookup, alookup]
      by_cases hkk : k1 = k1
      · rw [if_pos hkk, if_pos hkk]
      · exact absurd rfl hkk
    · by_cases hp : pb (k1, v1) = true
      · rw [hp]
        simp only [if_true]
        rw [alookup, alookup, if_neg hk, if_neg hk]
        exact ih
      · rw [Bool.not_eq_true] at hp
        rw [hp]
        simp only [Bool.false_eq_true, if_false]
        rw [alookup, if_neg hk]
        exact ih

/-! ## Claims about the workers and handlers -/

/-- Claim C1: `Packet.deserialize` is written as an undecorated instance
method `def deserialize(self, cls, raw_data)`, so the call
`Packet.deserialize(raw)` used by the sender's ACK-ingest worker and the
receiver's datagram worker binds one argument against three parameters and
raises `TypeError`; the workers' catch-all handlers swallow it, so no
received datagram is ever parsed or processed by either worker. -/
theorem claim_C1 : ∀ raw : List Nat,
    callPacketDeserializeOnClass raw = PyCallResult.typeError ∧
    (∀ s : SenderState, receiveAcksIteration s raw = s) ∧
    (∀ r : ReceiverState, receivePacketsIteration r raw = r) := by
  intro raw
  exact ⟨rfl, fun s => rfl, fun r => rfl⟩

/-- A non-corrupt DATA-flagged wire packet with `seq_num = 1`, payload
`b'A'`, window 5, built directly through the constructor (the source's
own `create_data_packet` cannot build any packet for the engine — see
claims C6–C8). -/
def seqOnePacket : Packet := Packet.withChecksum (Packet.make 1 0 1 5 [65])

set_option maxRecDepth 20000 in
/-- Claim C2 (code bug, acknowledged by the specification's design notes):
the receiver in its initial state (`expected_seq_num = 0`, nothing
delivered), upon processing a valid non-corrupt DATA packet with
`seq_num = 1`, emits a cumulative ACK with `ack_num = max(0, 0 - 1) = 0`
although sequence number 0 has never been delivered — so an ACK carrying
`0` does not confirm delivery of seqs `0..0`, contradicting the claimed
cumulative-ACK meaning. -/
theorem claim_C2 :
    seqOnePacket.is_data = true ∧
    seqOnePacket.is_corrupt = some false ∧
    seqOnePacket.seq_num = 1 ∧
    initReceiver.expected_seq_num = 0 ∧
    initReceiver.delivered = [] ∧
    (initReceiver.handle_data_packet seqOnePacket).2 = some 0 ∧
    (initReceiver.handle_data_packet seqOnePacket).1.delivered = [] := by
  refine ⟨by decide, by decide, by decide, rfl, rfl, by decide, by decide⟩

/-- Claim C5: when the sender processes a non-corrupt ACK packet with
`ack_num = a`, the `acks_received` counter is always incremented and
`next_seq_num` is untouched; if `a ≥ base` every buffered entry with seq
in `[base, a]` is removed (entries outside that range are looked up
unchanged) and `base` becomes `a + 1`; if `a < base` the ACK is stale and
no window state changes. -/
theorem claim_C5 : ∀ (s : SenderState) (p : Packet),
    p.is_ack = true → p.is_corrupt = some false →
    (s.handle_ack p.ack_num).acks_received_count = s.acks_received_count + 1 ∧
    (s.handle_ack p.ack_num).next_seq_num = s.next_seq_num ∧
    (s.base ≤ p.ack_num →
      (s.handle_ack p.ack_num).base = p.ack_num + 1 ∧
      (∀ q : Nat, s.base ≤ q → q ≤ p.ack_num →
        alookup (s.handle_ack p.ack_num).send_buffer q = none) ∧
      (∀ q : Nat, q < s.base ∨ p.ack_num < q →
        alookup (s.handle_ack p.ack_num).send_buffer q = alookup s.send_buffer q)) ∧
    (p.ack_num < s.base →
      (s.handle_ack p.ack_num).base = s.base ∧
      (s.handle_ack p.ack_num).send_buffer = s.send_buffer) := by
  intro s p hack hcorr
  unfold SenderState.handle_ack
  by_cases hge : s.base ≤ p.ack_num
  · rw [if_pos hge]
    refine ⟨rfl, rfl, fun _ => ⟨rfl, ?_, ?_⟩, fun h => absurd h (by omega)⟩
    · intro q h1 h2
      apply alookup_filter_none
      intro v
      simp
      omega
    · intro q hq
      apply alookup_filter_eq
      intro v
      simp
      omega
  · rw [if_neg hge]
    exact ⟨rfl, rfl, fun h => absurd h hge, fun _ => ⟨rfl, rfl⟩⟩

/-- A non-corrupt wire ACK carrying `ack_num = 0`. -/
def ackZeroPacket : Packet := Packet.withChecksum (create_ack_packet 0 5)

set_option maxRecDepth 20000 in
theorem claim_C5_witness :
    (initSender.handle_ack ackZeroPacket.ack_num).acks_received_count =
      initSender.acks_received_count + 1 ∧
    (initSender.handle_ack ackZeroPacket.ack_num).next_seq_num =
      initSender.next_seq_num ∧
    (initSender.base ≤ ackZeroPacket.ack_num →
      (initSender.handle_ack ackZeroPacket.ack_num).base = ackZeroPacket.ack_num + 1 ∧
      (∀ q : Nat, initSender.base ≤ q → q ≤ ackZeroPacket.ack_num →
        alookup (initSender.handle_ack ackZeroPacket.ack_num).send_buffer q = none) ∧
      (∀ q : Nat, q < initSender.base ∨ ackZeroPacket.ack_num < q →
        alookup (initSender.handle_ack ackZeroPacket.ack_num).send_buffer q =
          alookup initSender.send_buffer q)) ∧
    (ackZeroPacket.ack_num < initSender.base →
      (initSender.handle_ack ackZeroPacket.ack_num).base = initSender.base ∧
      (initSender.handle_ack ackZeroPacket.ack_num).send_buffer =
        initSender.send_buffer) :=
  claim_C5 initSender ackZeroPacket (by decide) (by decide)

/-! ## The broken DATA-packet construction in `send_data` (claims C6–C8)

`src/packet.py` defines `create_data_packet(type, seq_num, data,
window_size=5)` — with a spurious leading parameter named `type` that the
body never uses — while the engine's only DATA-packet construction site,
`rdt.py` line 89 in `send_data`, calls it with three positional
arguments: `create_data_packet(self.next_seq_num, chunk,
self.window_size)`.  These bind as `type ← next_seq_num` (int),
`seq_num ← chunk` (bytes) and `data ← window_size` (int), and
`Packet.__init__` then evaluates `data.encode()` on that int, raising
`AttributeError`.  `send_data` has no exception handler, so the
construction aborts the chunk loop before `_send_packet`, before the
`send_buffer` store and before the `next_seq_num` increment: the source
sender can never transmit, buffer or count a single DATA packet.  (Both
modules' own self-tests contradict the extra parameter: `packet.py`'s
`__main__` calls `create_data_packet(seq_num=100, data=...)`, a
`TypeError` for the written signature, and `rdt.py`'s `__main__` would
crash inside its first `send_data` call — the intended signature is
plainly `(seq_num, data, window_size=5)`.) -/

/-- A Python value as passed at the `rdt.py` call site: an `int` or a
`bytes`. -/
inductive PyVal where
  | pyInt : Nat → PyVal
  | pyBytes : List Nat → PyVal
deriving DecidableEq

/-- Outcome of a Python expression: a value, or an uncaught
`AttributeError`. -/
inductive PyEvalResult (α : Type) where
  | ok : α → PyEvalResult α
  | attributeError : PyEvalResult α
deriving DecidableEq

/-- The value each parameter of `create_data_packet(type, seq_num, data,
window_size=5)` receives from a call. -/
structure CreateDataPacketArgs where
  type : PyVal
  seq_num : PyVal
  data : PyVal
  window_size : PyVal
deriving DecidableEq

/-- Positional-argument binding of the `send_data` call
`create_data_packet(self.next_seq_num, chunk, self.window_size)` against
the source parameter list `(type, seq_num, data, window_size=5)`: the
three arguments land on the first three parameters and `window_size`
keeps its default `5`. -/
def rdtSendCallBinding (next_seq_num : Nat) (chunk : List Nat)
    (sender_window : Nat) : CreateDataPacketArgs :=
  { type := PyVal.pyInt next_seq_num,
    seq_num := PyVal.pyBytes chunk,
    data := PyVal.pyInt sender_window,
    window_size := PyVal.pyInt 5 }

/-- Models `Packet.__init__`'s payload coercion
`data if isinstance(data, bytes) else data.encode()`: a bytes value
passes through; an `int` has no `encode` attribute, so the expression
raises `AttributeError`. -/
def packetInitData : PyVal → PyEvalResult (List Nat)
  | PyVal.pyBytes b => PyEvalResult.ok b
  | PyVal.pyInt _ => PyEvalResult.attributeError

/-- Models the outcome of `create_data_packet(...)` under a given
argument binding: the body forwards `seq_num`, `flags=PacketType.DATA`,
`window_size` and `data` to `Packet(...)`, whose constructor performs the
payload coercion — the one step here that can raise.  On success the
result carries whatever value landed on `seq_num` (under the `send_data`
binding, the chunk bytes rather than a number) together with the coerced
payload bytes. -/
def create_data_packet_result (args : CreateDataPacketArgs) :
    PyEvalResult (PyVal × List Nat) :=
  match packetInitData args.data with
  | PyEvalResult.ok b => PyEvalResult.ok (args.seq_num, b)
  | PyEvalResult.attributeError => PyEvalResult.attributeError

/-- Claim C6 (code bug): the claimed guarded-send mechanism never
executes.  For every sender state and every chunk, the packet
construction `send_data` performs binds the int `window_size` to the
`data` parameter and raises `AttributeError`, aborting the iteration
before the transmit, the buffer store and the `next_seq_num` increment;
so `send_data` never transmits a chunk and never increments
`next_seq_num`, and the only state the window logic ever occupies is the
initial one, where `base ≤ next_seq_num ≤ base + W` holds degenerately
(`0 ≤ 0 ≤ 0 + W`) rather than through the claimed window discipline. -/
theorem claim_C6 : ∀ (W : Nat) (s : SenderState) (chunk : List Nat),
    (rdtSendCallBinding s.next_seq_num chunk W).data = PyVal.pyInt W ∧
    (rdtSendCallBinding s.next_seq_num chunk W).seq_num = PyVal.pyBytes chunk ∧
    create_data_packet_result (rdtSendCallBinding s.next_seq_num chunk W) =
      PyEvalResult.attributeError ∧
    initSender.base ≤ initSender.next_seq_num ∧
    initSender.next_seq_num ≤ initSender.base + W := by
  intro W s chunk
  exact ⟨rfl, rfl, rfl, le_rfl, Nat.zero_le _⟩

/-- Claim C7 (code bug): there are no "packets the sender produced" for
the receiver to process.  The construction of the DATA packet for any
chunk of any input raises `AttributeError` under the `send_data` argument
binding, and independently the receiver's datagram worker never changes
its delivery log on any received datagram (its `Packet.deserialize` call
raises `TypeError`, claim C1); so nothing is ever pushed to the delivery
queue and the concatenation delivered by a receiver paired with this
sender stays empty instead of reproducing the sender's input. -/
theorem claim_C7 : ∀ (next_seq_num sender_window : Nat) (chunk : List Nat),
    create_data_packet_result (rdtSendCallBinding next_seq_num chunk sender_window) =
      PyEvalResult.attributeError ∧
    initReceiver.delivered = [] ∧
    (∀ (r : ReceiverState) (raw : List Nat),
      (receivePacketsIteration r raw).delivered = r.delivered) := by
  intro next_seq_num sender_window chunk
  exact ⟨rfl, rfl, fun r raw => rfl⟩

/-- Claim C8 (code bug): nothing is ever buffered for the timeout scanner
to retransmit.  The `send_buffer` store in `send_data` is preceded by the
packet construction, which raises `AttributeError` for every chunk and is
never caught, so the buffer keeps its initial empty value (no key ever
looks up); the ACK worker never touches the buffer either (its
`Packet.deserialize` call raises `TypeError`, claim C1).  The claimed
byte-identical retransmission of stored packets is dead code. -/
theorem claim_C8 : ∀ (next_seq_num sender_window q : Nat) (chunk : List Nat),
    create_data_packet_result (rdtSendCallBinding next_seq_num chunk sender_window) =
      PyEvalResult.attributeError ∧
    initSender.send_buffer = [] ∧
    alookup initSender.send_buffer q = none ∧
    (∀ (s : SenderState) (raw : List Nat),
      (receiveAcksIteration s raw).send_buffer = s.send_buffer) := by
  intro next_seq_num sender_window q chunk
  exact ⟨rfl, rfl, rfl, fun s raw => rfl⟩

/-! ## The `receive_all_data` completion heuristic (claim C9)

The polling loop of `RDTReceiver.receive_all_data` is driven by an
explicit iteration oracle: each entry gives the wall-clock sample for the
iteration (in the model's time unit), the chunk obtained from
`receive_data()` (`[]` stands for both `None` and the falsy empty bytes),
and the `packets_received` counter as sampled before and after the queue
read.  The loop returns `none` if the oracle runs out while the loop
would still be spinning. -/

/-- One sampling iteration's environment for the `receive_all_data`
loop. -/
structure PollStep where
  t : Nat
  chunk : List Nat
  pkBefore : Nat
  pkAfter : Nat
deriving DecidableEq

/-- How the loop exited: the `while time.time() - last_activity_time <
timeout` condition failed, or the
`consecutive_empty_reads > 200 and len(all_data) > 0` break fired. -/
inductive RAExit where
  | timedOut
  | inactive
deriving DecidableEq

/-- Models the body of `receive_all_data`: `lastActivity` is
`last_activity_time`, `empties` is `consecutive_empty_reads`, `allData`
is the accumulator.  A delivered chunk or an advance of
`packets_received` refreshes `lastActivity` and resets `empties`;
otherwise `empties` is incremented and the break fires once it exceeds
200 with at least one byte accumulated. -/
def receiveAllLoop (timeout : Nat) :
    List PollStep → Nat → Nat → List Nat → Option (List Nat × RAExit)
  | [], _, _, _ => none
  | st :: rest, lastActivity, empties, allData =>
    if timeout ≤ st.t - lastActivity then some (allData, RAExit.timedOut)
    else if st.chunk ≠ [] then
      receiveAllLoop timeout rest st.t 0 (allData ++ st.chunk)
    else if st.pkBefore < st.pkAfter then
      receiveAllLoop timeout rest st.t 0 allData
    else if 200 < empties + 1 ∧ allData ≠ [] then some (allData, RAExit.inactive)
    else receiveAllLoop timeout rest lastActivity (empties + 1) allData

/-- Models `receive_all_data(timeout)` started at clock `t0`. -/
def receive_all_data (steps : List PollStep) (timeout t0 : Nat) :
    Option (List Nat × RAExit) :=
  receiveAllLoop timeout steps t0 0 []

/-- Claim C9 counterexample: with `timeout = 3` and no datagram ever
arriving, `receive_all_data` declares the transfer complete (the `while`
condition lapses) and returns the empty byte string — completion without
a single delivered byte, contrary to the claimed "exactly when at least
one byte has been delivered". -/
theorem claim_C9_cex :
    receive_all_data [⟨1, [], 0, 0⟩, ⟨2, [], 0, 0⟩, ⟨3, [], 0, 0⟩] 3 0 =
      some ([], RAExit.timedOut) ∧
    ¬ ([] : List Nat) ≠ [] := by
  exact ⟨by decide, by simp⟩

/-- Claim C9 (amended): whenever `receive_all_data` declares the transfer
complete it returns exactly the concatenation of the delivered (truthy)
chunks; the early inactivity break — which fires after more than 200
consecutive empty ~100 ms samples with no counter advance, a fixed ≈20 s
horizon independent of `timeout` — can only fire once at least one byte
has been delivered; the `timeout`-based exit, in contrast, fires after
`timeout` of sampled inactivity regardless of whether anything was
delivered. -/
theorem claim_C9 : ∀ (timeout : Nat) (steps : List PollStep)
    (lastActivity empties : Nat) (allData d : List Nat) (ex : RAExit),
    receiveAllLoop timeout steps lastActivity empties allData = some (d, ex) →
    (∃ n : Nat, d = allData ++ ((steps.take n).map PollStep.chunk).flatten) ∧
    (ex = RAExit.inactive → d ≠ []) := by
  intro timeout steps
  induction steps with
  | nil =>
    intro lastActivity empties allData d ex h
    exact absurd h (by rw [receiveAllLoop]; exact Option.noConfusion)
  | cons st rest ih =>
    intro lastActivity empties allData d ex h
    rw [receiveAllLoop] at h
    by_cases h1 : timeout ≤ st.t - lastActivity
    · rw [if_pos h1] at h
      injection h with h
      injection h with hd hex
      subst hd
      subst hex
      refine ⟨⟨0, by simp⟩, ?_⟩
      intro hx
      exact absurd hx (by intro hc; exact RAExit.noConfusion hc)
    · rw [if_neg h1] at h
      by_cases h2 : st.chunk ≠ []
      · rw [if_pos h2] at h
        obtain ⟨⟨n, hn⟩, hin⟩ := ih st.t 0 (allData ++ st.chunk) d ex h
        refine ⟨⟨n + 1, ?_⟩, hin⟩
        rw [hn]
        simp
      · rw [if_neg h2] at h
        rw [Classical.not_not] at h2
        by_cases h3 : st.pkBefore < st.pkAfter
        · rw [if_pos h3] at h
          obtain ⟨⟨n, hn⟩, hin⟩ := ih st.t 0 allData d ex h
          refine ⟨⟨n + 1, ?_⟩, hin⟩
          rw [hn]
          simp [h2]
        · rw [if_neg h3] at h
          by_cases h4 : 200 < empties + 1 ∧ allData ≠ []
          · rw [if_pos h4] at h
            injection h with h
            injection h with hd hex
            subst hd
            refine ⟨⟨0, by simp⟩, fun _ => h4.2⟩
          · rw [if_neg h4] at h
            obtain ⟨⟨n, hn⟩, hin⟩ := ih lastActivity (empties + 1) allData d ex h
            refine ⟨⟨n + 1, ?_⟩, hin⟩
            rw [hn]
            simp [h2]

theorem claim_C9_witness :
    (∃ n : Nat, [7] = [] ++ ((([⟨1, [7], 0, 0⟩, ⟨5, [], 0, 0⟩] :
      List PollStep).take n).map PollStep.chunk).flatten) ∧
    (RAExit.timedOut = RAExit.inactive → ([7] : List Nat) ≠ []) :=
  claim_C9 3 [⟨1, [7], 0, 0⟩, ⟨5, [], 0, 0⟩] 0 0 [] [7] RAExit.timedOut (by decide)
